import Mathlib

/-
Shallow embedding of src/zoning.py (Portland zoning / building lookup script).

HTTP endpoint behaviour is modelled by the inductive `Response`: the three
ways a request can fail in the Python code (requests.get raising, a non-2xx
status turned into an exception by raise_for_status, resp.json() raising) and
a successful parse, whose body may or may not contain a "features" key.
Python exceptions become the `PyErr` type; functions that can raise return
`Except PyErr _`, functions that swallow errors return `Option _`.
Floats are only ever interpolated into strings by the script, so coordinates
are carried as their rendered decimal strings.

For claims about call ordering and call counts, traced variants of the
query pipeline return the list of network calls performed (`NetCall`).
-/

namespace ZoningPy

/-- A scalar value in an HTTP query-parameter dict: the Python dicts mix
strings and the integer 4326. -/
inductive PValue where
  | str (s : String)
  | int (n : Int)
deriving DecidableEq, Repr

/-- A GIS attributes mapping: stringly-typed keys to scalar values, with
absent keys read via `.get` returning `None`. -/
abbrev AttrMap := List (String × String)

/-- Python dict `.get(key)`: the value, or absence. -/
def getAttr (m : AttrMap) (k : String) : Option String := m.lookup k

/-- One GIS feature record: `{"attributes": {...}}`. -/
structure Feature where
  attributes : AttrMap
deriving DecidableEq, Repr

/-- The observable behaviour of one HTTP request to a feature-service
endpoint, as distinguished by the Python code. -/
inductive Response where
  /-- Network failure: `requests.get` itself raises (timeout, DNS, ...). -/
  | netFail (msg : String)
  /-- Non-2xx status: `resp.raise_for_status()` raises `HTTPError`. -/
  | httpStatus (msg : String)
  /-- Malformed body: `resp.json()` raises. -/
  | badJson (msg : String)
  /-- Parsed JSON body; the `"features"` key may be absent (`none`). -/
  | ok (featuresKey : Option (List Feature))
deriving DecidableEq, Repr

/-- A Python exception as it escapes one of the script's functions. -/
inductive PyErr where
  | requestException (msg : String)
  | httpError (msg : String)
  | jsonError (msg : String)
  | valueError (msg : String)
deriving DecidableEq, Repr

/-- Python `str(e)`: the message of the exception, as printed by `f"Error: {e}"`. -/
def PyErr.message : PyErr → String
  | .requestException m => m
  | .httpError m => m
  | .jsonError m => m
  | .valueError m => m

/-- The response raised an exception before `features` could be read
(network failure, non-2xx status, or malformed JSON). -/
def respErrored : Response → Bool
  | .ok _ => false
  | _ => true

/-- The response parsed but `data.get("features", [])` is the empty list
(zero features, or no `"features"` key at all). -/
def respEmpty : Response → Bool
  | .ok fs? =>
    match fs?.getD [] with
    | [] => true
    | _ :: _ => false
  | _ => false

/-- A network call the script can perform, for tracing. -/
inductive NetCall where
  | geocode (addr : String)
  | zoningQuery
  | buildingQuery
  | taxlotQuery (i : Nat)
deriving DecidableEq, Repr

/-- What `geolocator.geocode` returns on a match: a location object with
`latitude`, `longitude` and `address` (coordinates as rendered strings). -/
structure GeoLocation where
  latitude : String
  longitude : String
  address : String
deriving DecidableEq, Repr

/-- The environment one run of the script executes against: what the
geocoder answers for each address, and how each endpoint URL responds.
Each endpoint is hit at most once per run, so one `Response` per URL is
fully general. -/
structure World where
  geocoder : String → Option GeoLocation
  zoningResp : Response
  buildingResp : Response
  taxlotResp1 : Response
  taxlotResp2 : Response

/-- The dict returned by `geocode_address`. -/
structure GeoResult where
  latitude : String
  longitude : String
  matched_address : String
deriving DecidableEq, Repr

/-- The endpoint URL of `query_building` (Buildings layer 184). -/
def building_url : String :=
  "https://www.portlandmaps.com/od/rest/services/COP_OpenData_Property/MapServer/184/query"

/-- The module constant `ZONING_QUERY_URL`. -/
def ZONING_QUERY_URL : String :=
  "https://www.portlandmaps.com/od/rest/services/COP_OpenData_ZoningCode/MapServer/16/query"

/-- The two candidate endpoint URLs of `query_taxlot`, in order. -/
def taxlot_urls : List String :=
  [ "https://www.portlandmaps.com/od/rest/services/COP_OpenData_Property/MapServer/1272/query",
    "https://www.portlandmaps.com/od/rest/services/COP_OpenData_Property/MapServer/47/query" ]

/-- The `params` dict built inside `query_building`. -/
def building_params (lat lon : String) : List (String × PValue) :=
  [ ("geometry", PValue.str (lon ++ "," ++ lat)),
    ("geometryType", PValue.str "esriGeometryPoint"),
    ("inSR", PValue.int 4326),
    ("spatialRel", PValue.str "esriSpatialRelIntersects"),
    ("outFields", PValue.str "*"),
    ("where", PValue.str "1=1"),
    ("f", PValue.str "json") ]

/-- The `params` dict built inside `query_zoning`. -/
def zoning_params (lat lon : String) : List (String × PValue) :=
  [ ("geometry", PValue.str (lon ++ "," ++ lat)),
    ("geometryType", PValue.str "esriGeometryPoint"),
    ("inSR", PValue.int 4326),
    ("spatialRel", PValue.str "esriSpatialRelIntersects"),
    ("outFields", PValue.str "*"),
    ("where", PValue.str "1=1"),
    ("f", PValue.str "json") ]

/-- The `params` dict built inside `query_taxlot`. -/
def taxlot_params (lat lon : String) : List (String × PValue) :=
  [ ("geometry", PValue.str (lon ++ "," ++ lat)),
    ("geometryType", PValue.str "esriGeometryPoint"),
    ("inSR", PValue.int 4326),
    ("spatialRel", PValue.str "esriSpatialRelIntersects"),
    ("outFields", PValue.str "*"),
    ("where", PValue.str "1=1"),
    ("f", PValue.str "json") ]

/-- The body of `query_building`'s `try` block: get, raise_for_status,
json(), `data.get("features", [])`, and `features[0]["attributes"]` if
non-empty, else fall through to `None`. -/
def query_building_attempt (resp : Response) : Except PyErr (Option AttrMap) :=
  match resp with
  | .netFail m => .error (.requestException m)
  | .httpStatus m => .error (.httpError m)
  | .badJson m => .error (.jsonError m)
  | .ok fs? =>
    match fs?.getD [] with
    | [] => .ok none
    | f :: _ => .ok (some f.attributes)

/-- Function `query_building(lat, lon)`: the `try`/`except Exception: pass` wrapper
converts every raised exception into the `None` fall-through. -/
def query_building (lat lon : String) (resp : Response) : Option AttrMap :=
  match query_building_attempt resp with
  | .ok v => v
  | .error _ => none

/-- Function `geocode_address(address)`: raises
`ValueError("Address could not be geocoded")` when the geocoder returns no
match, otherwise returns the latitude/longitude/matched-address dict. -/
def geocode_address (w : World) (address : String) : Except PyErr GeoResult :=
  match w.geocoder address with
  | none => .error (.valueError "Address could not be geocoded")
  | some location =>
    .ok { latitude := location.latitude,
          longitude := location.longitude,
          matched_address := location.address }

/-- Function `query_zoning(lat, lon)`: strict mode. `requests.get` /
`raise_for_status` / `json()` errors propagate; an empty
`data.get("features", [])` raises
`ValueError("No zoning data found for this location")`; otherwise
`features[0]` is returned. -/
def query_zoning (lat lon : String) (resp : Response) : Except PyErr Feature :=
  match resp with
  | .netFail m => .error (.requestException m)
  | .httpStatus m => .error (.httpError m)
  | .badJson m => .error (.jsonError m)
  | .ok fs? =>
    match fs?.getD [] with
    | [] => .error (.valueError "No zoning data found for this location")
    | f :: _ => .ok f

/-- The dict returned by `extract_zoning_attrs`. -/
structure ZoningResult where
  base_zone : Option String
  overlay_zones : Option String
  plan_district : Option String
  source : String
  raw_attributes : AttrMap
deriving DecidableEq, Repr

/-- Function `extract_zoning_attrs(feature)`. -/
def extract_zoning_attrs (feature : Feature) : ZoningResult :=
  { base_zone := getAttr feature.attributes "ZONE",
    overlay_zones := getAttr feature.attributes "OVERLAY",
    plan_district := getAttr feature.attributes "PLAN_DISTRICT",
    source := "Portland Maps - Zoning Code",
    raw_attributes := feature.attributes }

/-- The `result["location"]` sub-dict. -/
structure Location where
  lat : String
  lon : String
deriving DecidableEq, Repr

/-- The dict returned by `get_zoning_for_address`. -/
structure LookupReport where
  input_address : String
  matched_address : String
  location : Location
  zoning : ZoningResult
deriving DecidableEq, Repr

/-- Traced `get_zoning_for_address(address)`: geocode, then strict zoning
query, then attribute extraction; second component is the list of network
calls performed, in order. -/
def get_zoning_for_addressT (w : World) (address : String) :
    Except PyErr LookupReport × List NetCall :=
  match geocode_address w address with
  | .error e => (.error e, [.geocode address])
  | .ok geo =>
    match query_zoning geo.latitude geo.longitude w.zoningResp with
    | .error e => (.error e, [.geocode address, .zoningQuery])
    | .ok feature =>
      (.ok { input_address := address,
             matched_address := geo.matched_address,
             location := { lat := geo.latitude, lon := geo.longitude },
             zoning := extract_zoning_attrs feature },
       [.geocode address, .zoningQuery])

/-- Function `get_zoning_for_address(address)`: the value (or exception) of the
traced run. -/
def get_zoning_for_address (w : World) (address : String) :
    Except PyErr LookupReport :=
  (get_zoning_for_addressT w address).1

/-- Python `f"{attrs.get(k)}"`: the value, or the text `None`. -/
def showOpt : Option String → String
  | none => "None"
  | some s => s

/-- Function `format_zoning_result(result)`. -/
def format_zoning_result (result : LookupReport) : String :=
  let zoning := result.zoning
  let attrs := zoning.raw_attributes
  String.intercalate "\n"
    [ "ADDRESS LOOKUP",
      "  Input Address   : " ++ result.input_address,
      "  Matched Address : " ++ result.matched_address,
      "",
      "LOCATION",
      "  Latitude  : " ++ result.location.lat,
      "  Longitude : " ++ result.location.lon,
      "",
      "ZONING SUMMARY",
      "  Base Zone       : " ++ showOpt zoning.base_zone ++ " (" ++
        showOpt (getAttr attrs "ZONE_DESC") ++ ")",
      "  Overlay Zone    : " ++ showOpt (getAttr attrs "OVRLY") ++ " (" ++
        showOpt (getAttr attrs "OVRLY_DESC") ++ ")",
      "  Plan District   : " ++ showOpt (getAttr attrs "PLDIST") ++ " (" ++
        showOpt (getAttr attrs "PLDIST_DESC") ++ ")",
      "  Map Label       : " ++ showOpt (getAttr attrs "MAPLABEL"),
      "",
      "COMPREHENSIVE PLAN",
      "  Designation     : " ++ showOpt (getAttr attrs "CMP") ++ " (" ++
        showOpt (getAttr attrs "CMP_DESC") ++ ")",
      "",
      "DATA SOURCE",
      "  " ++ zoning.source ]

/-- Python `f"{key:25}"`: left-align, pad with spaces to width 25. -/
def padTo (s : String) (n : Nat) : String :=
  s ++ String.mk (List.replicate (n - s.length) ' ')

/-- The label/raw-key pairs of the `building_info` dict built inside
`print_building_info`, in insertion order. -/
def building_fields : List (String × String) :=
  [ ("Building Name", "BLDG_NAME"),
    ("Building Address", "BLDG_ADDR"),
    ("Building ID", "BLDG_ID"),
    ("Year Built", "YEAR_BUILT"),
    ("Building Type", "BLDG_TYPE"),
    ("Predominant Use", "BLDG_USE"),
    ("Square Footage", "BLDG_SQFT"),
    ("Number of Stories", "NUM_STORY"),
    ("Residential Units", "UNITS_RES"),
    ("Total Occupancy", "OCCUP_CAP"),
    ("ADA Accessible", "ADA_ACCESS"),
    ("Average Height", "AVG_HEIGHT"),
    ("Maximum Height", "MAX_HEIGHT"),
    ("Minimum Height", "MIN_HEIGHT"),
    ("Roof Elevation", "ROOF_ELEV"),
    ("Structure Type", "STRUC_TYPE"),
    ("Structure Condition", "STRUC_COND") ]

/-- Function `print_building_info(building_attrs)`: the list of strings printed, one
per `print` call. `if building_attrs:` is Python truthiness: `None` and the
empty dict both take the no-data branch. -/
def print_building_info (building_attrs : Option AttrMap) : List String :=
  "\nBUILDING INFORMATION" ::
  match building_attrs with
  | some (a :: rest) =>
    building_fields.map
      (fun kv => "  " ++ padTo kv.1 25 ++ ": " ++ showOpt (getAttr (a :: rest) kv.2))
  | _ => ["  (No building info found for this location)"]

/-- One iteration of `query_taxlot`'s loop over one URL: an exception hits
`continue` (move to next URL), zero features fall through the `if` (also
move on), a non-empty feature list returns `features[0]["attributes"]`. -/
def try_taxlot_url (resp : Response) : Option AttrMap :=
  match resp with
  | .ok fs? =>
    match fs?.getD [] with
    | [] => none
    | f :: _ => some f.attributes
  | _ => none

/-- Traced `query_taxlot(lat, lon)`: loop over the two candidate URLs in
order, returning the first hit; `None` after the loop. Second component is
the endpoints actually requested, in order. -/
def query_taxlotT (lat lon : String) (resp1 resp2 : Response) :
    Option AttrMap × List NetCall :=
  match try_taxlot_url resp1 with
  | some attrs => (some attrs, [.taxlotQuery 1])
  | none => (try_taxlot_url resp2, [.taxlotQuery 1, .taxlotQuery 2])

/-- Function `query_taxlot(lat, lon)`: the value of the traced run. -/
def query_taxlot (lat lon : String) (resp1 resp2 : Response) : Option AttrMap :=
  (query_taxlotT lat lon resp1 resp2).1

/-- The hardcoded example address of the `__main__` block. -/
def example_address : String := "935 NE 33RD AVE, Portland, OR"

/-- Traced `__main__` block: run `get_zoning_for_address`, print the zoning
report, then query and print building info; any exception from the `try`
body is printed as a single `Error: ...` line. First component is the list
of strings printed, second the network calls performed. -/
def mainT (w : World) (address : String) : List String × List NetCall :=
  match get_zoning_for_addressT w address with
  | (.error e, tr) => (["Error: " ++ e.message], tr)
  | (.ok result, tr) =>
    let building_attrs := query_building result.location.lat result.location.lon w.buildingResp
    (format_zoning_result result :: print_building_info building_attrs,
     tr ++ [.buildingQuery])

/-- Everything printed by one run of the script. -/
def main_output (w : World) (address : String) : List String := (mainT w address).1

/-- Every network call performed by one run of the script, in order. -/
def main_trace (w : World) (address : String) : List NetCall := (mainT w address).2

/-- A concrete geocoder answer, for witnesses. -/
def sampleGeo : GeoLocation :=
  { latitude := "45.535", longitude := "-122.63",
    address := "935 NE 33rd Ave, Portland, OR, USA" }

/-- A world whose geocoder resolves every address but whose zoning endpoint
returns zero features. -/
def emptyZoningWorld : World :=
  { geocoder := fun _ => some sampleGeo,
    zoningResp := Response.ok (some []),
    buildingResp := Response.ok (some []),
    taxlotResp1 := Response.ok (some []),
    taxlotResp2 := Response.ok (some []) }

/-- A world whose geocoder resolves no address. -/
def noGeoWorld : World :=
  { geocoder := fun _ => none,
    zoningResp := Response.ok (some []),
    buildingResp := Response.ok (some []),
    taxlotResp1 := Response.ok (some []),
    taxlotResp2 := Response.ok (some []) }

/-- A concrete feature, for witnesses. -/
def sampleFeature : Feature := { attributes := [("ZONE", "R5")] }

/-- Helper: one taxlot-loop iteration moves on to the next URL exactly when
the response errored or carried zero features. -/
theorem try_taxlot_url_eq_none_iff (r : Response) :
    try_taxlot_url r = none ↔ (respErrored r = true ∨ respEmpty r = true) := by
  cases r with
  | netFail m => simp [try_taxlot_url, respErrored]
  | httpStatus m => simp [try_taxlot_url, respErrored]
  | badJson m => simp [try_taxlot_url, respErrored]
  | ok fs? =>
    cases fs? with
    | none => simp [try_taxlot_url, respErrored, respEmpty]
    | some l =>
      cases l with
      | nil => simp [try_taxlot_url, respErrored, respEmpty]
      | cons f rest => simp [try_taxlot_url, respErrored, respEmpty]

/-- Helper: the zoning path performs either just the geocode call, or the
geocode call followed by the zoning query — nothing else. -/
theorem gz_trace_cases (w : World) (addr : String) :
    (get_zoning_for_addressT w addr).2 = [NetCall.geocode addr] ∨
    (get_zoning_for_addressT w addr).2 = [NetCall.geocode addr, NetCall.zoningQuery] := by
  rcases h : geocode_address w addr with e | g
  · left
    simp [get_zoning_for_addressT, h]
  · rcases h2 : query_zoning g.latitude g.longitude w.zoningResp with e | f
    · right
      simp [get_zoning_for_addressT, h, h2]
    · right
      simp [get_zoning_for_addressT, h, h2]

/-- C1: whenever the zoning endpoint's response parses with zero features,
`query_zoning` raises `ValueError("No zoning data found for this location")`
and `get_zoning_for_address` fails with that error; HTTP-level failures of
the single zoning endpoint propagate as the underlying transport failure
(the requests exception or the `raise_for_status` HTTPError), never as
absence. -/
theorem C1_strict_zoning :
    (∀ (lat lon : String) (fs? : Option (List Feature)), fs?.getD [] = [] →
      query_zoning lat lon (Response.ok fs?) =
        Except.error (PyErr.valueError "No zoning data found for this location"))
    ∧ (∀ (w : World) (addr : String) (g : GeoLocation),
        w.geocoder addr = some g → w.zoningResp = Response.ok (some []) →
        get_zoning_for_address w addr =
          Except.error (PyErr.valueError "No zoning data found for this location"))
    ∧ (∀ (lat lon m : String),
        query_zoning lat lon (Response.netFail m) =
          Except.error (PyErr.requestException m)
        ∧ query_zoning lat lon (Response.httpStatus m) =
          Except.error (PyErr.httpError m)
        ∧ query_zoning lat lon (Response.badJson m) =
          Except.error (PyErr.jsonError m)) := by
  refine ⟨?_, ?_, ?_⟩
  · intro lat lon fs? h
    simp only [query_zoning, h]
  · intro w addr g hg hz
    simp [get_zoning_for_address, get_zoning_for_addressT, geocode_address, hg, hz,
      query_zoning]
  · intro lat lon m
    exact ⟨rfl, rfl, rfl⟩

/-- C1 witness: at a concrete world whose zoning endpoint returns an empty
feature list, the lookup fails with the no-zoning-data error. -/
theorem C1_strict_zoning_witness :
    get_zoning_for_address emptyZoningWorld example_address =
      Except.error (PyErr.valueError "No zoning data found for this location") :=
  C1_strict_zoning.2.1 emptyZoningWorld example_address sampleGeo rfl rfl

/-- C2: tolerant mode. For every behaviour of the building endpoint that
errored (network failure, non-2xx, malformed JSON) or returned zero
features, `query_building` returns `none`; and every exception raised
inside its `try` block is swallowed into `none`, so no exception ever
escapes. -/
theorem C2_tolerant_building :
    ∀ (lat lon : String) (r : Response),
      ((respErrored r = true ∨ respEmpty r = true) → query_building lat lon r = none)
      ∧ (∀ e : PyErr, query_building_attempt r = Except.error e →
          query_building lat lon r = none) := by
  intro lat lon r
  constructor
  · intro h
    cases r with
    | netFail m => rfl
    | httpStatus m => rfl
    | badJson m => rfl
    | ok fs? =>
      rcases h with h | h
      · simp [respErrored] at h
      · cases fs? with
        | none => rfl
        | some l =>
          cases l with
          | nil => rfl
          | cons f rest => simp [respEmpty] at h
  · intro e he
    simp [query_building, he]

/-- C2 witness: a timed-out request to the building endpoint yields `none`. -/
theorem C2_tolerant_building_witness :
    query_building "45.535" "-122.63" (Response.netFail "timeout") = none :=
  (C2_tolerant_building "45.535" "-122.63" (Response.netFail "timeout")).1 (Or.inl rfl)

/-- C3: when the geocoder returns no match, `get_zoning_for_address` raises
`ValueError("Address could not be geocoded")`, and the whole run performs
only the geocode call: no zoning, building or taxlot query is ever
issued. -/
theorem C3_geocode_fail_fast :
    ∀ (w : World) (addr : String), w.geocoder addr = none →
      get_zoning_for_address w addr =
        Except.error (PyErr.valueError "Address could not be geocoded")
      ∧ main_trace w addr = [NetCall.geocode addr]
      ∧ NetCall.zoningQuery ∉ main_trace w addr
      ∧ NetCall.buildingQuery ∉ main_trace w addr
      ∧ NetCall.taxlotQuery 1 ∉ main_trace w addr
      ∧ NetCall.taxlotQuery 2 ∉ main_trace w addr := by
  intro w addr h
  have htr : main_trace w addr = [NetCall.geocode addr] := by
    simp [main_trace, mainT, get_zoning_for_addressT, geocode_address, h]
  refine ⟨?_, htr, ?_, ?_, ?_, ?_⟩
  · simp [get_zoning_for_address, get_zoning_for_addressT, geocode_address, h]
  all_goals simp [htr]

/-- C3 witness: at a world whose geocoder resolves nothing, the lookup
fails with the geocode error and the trace is the geocode call alone. -/
theorem C3_geocode_fail_fast_witness :
    get_zoning_for_address noGeoWorld example_address =
      Except.error (PyErr.valueError "Address could not be geocoded")
    ∧ main_trace noGeoWorld example_address = [NetCall.geocode example_address] := by
  have h := C3_geocode_fail_fast noGeoWorld example_address rfl
  exact ⟨h.1, h.2.1⟩

/-- C4: in `query_taxlot`, the second endpoint is requested iff the first
endpoint's response errored or carried zero features; after a non-empty
feature list from endpoint 1 the trace is endpoint 1 alone, and an error at
endpoint 1 still leads to endpoint 2 being requested. -/
theorem C4_taxlot_order :
    ∀ (lat lon : String) (r1 r2 : Response),
      (NetCall.taxlotQuery 2 ∈ (query_taxlotT lat lon r1 r2).2 ↔
        (respErrored r1 = true ∨ respEmpty r1 = true))
      ∧ (∀ attrs : AttrMap, try_taxlot_url r1 = some attrs →
          (query_taxlotT lat lon r1 r2).2 = [NetCall.taxlotQuery 1])
      ∧ (respErrored r1 = true →
          NetCall.taxlotQuery 2 ∈ (query_taxlotT lat lon r1 r2).2) := by
  intro lat lon r1 r2
  rcases h : try_taxlot_url r1 with _ | attrs
  · have hr : respErrored r1 = true ∨ respEmpty r1 = true :=
      (try_taxlot_url_eq_none_iff r1).mp h
    refine ⟨?_, ?_, ?_⟩
    · simp [query_taxlotT, h, hr]
    · intro a ha
      simp at ha
    · intro _
      simp [query_taxlotT, h]
  · have hr : ¬(respErrored r1 = true ∨ respEmpty r1 = true) := by
      rw [← try_taxlot_url_eq_none_iff, h]
      simp
    refine ⟨?_, ?_, ?_⟩
    · simp [query_taxlotT, h, hr]
    · intro a _
      simp [query_taxlotT, h]
    · intro he
      exact absurd (Or.inl he) hr

/-- C4 witness: with a non-empty result at endpoint 1 only endpoint 1 is
requested, and with a network failure at endpoint 1 endpoint 2 is
requested. -/
theorem C4_taxlot_order_witness :
    (query_taxlotT "45.535" "-122.63"
        (Response.ok (some [sampleFeature])) (Response.netFail "x")).2 =
      [NetCall.taxlotQuery 1]
    ∧ NetCall.taxlotQuery 2 ∈
      (query_taxlotT "45.535" "-122.63"
        (Response.netFail "x") (Response.ok (some [sampleFeature]))).2 :=
  ⟨(C4_taxlot_order "45.535" "-122.63"
      (Response.ok (some [sampleFeature])) (Response.netFail "x")).2.1
      sampleFeature.attributes rfl,
   (C4_taxlot_order "45.535" "-122.63"
      (Response.netFail "x") (Response.ok (some [sampleFeature]))).2.2 rfl⟩

/-- C5: first-feature selection in all three modes. When an endpoint's
response carries a non-empty feature list `f :: rest`, the strict zoning
query returns `f` (= `features[0]`), the tolerant building query surfaces
`f`'s attributes mapping, and the tolerant taxlot query surfaces `f`'s
attributes mapping — from endpoint 1 when endpoint 1 is non-empty, and from
endpoint 2 when endpoint 1 errored or was empty. -/
theorem C5_first_feature :
    ∀ (lat lon : String) (f : Feature) (rest : List Feature) (r2 : Response),
      query_zoning lat lon (Response.ok (some (f :: rest))) = Except.ok f
      ∧ query_building lat lon (Response.ok (some (f :: rest))) = some f.attributes
      ∧ query_taxlot lat lon (Response.ok (some (f :: rest))) r2 = some f.attributes
      ∧ (∀ r1 : Response, (respErrored r1 = true ∨ respEmpty r1 = true) →
          query_taxlot lat lon r1 (Response.ok (some (f :: rest))) = some f.attributes) := by
  intro lat lon f rest r2
  refine ⟨rfl, rfl, rfl, ?_⟩
  intro r1 h1
  have h : try_taxlot_url r1 = none := (try_taxlot_url_eq_none_iff r1).mpr h1
  unfold query_taxlot query_taxlotT
  rw [h]
  rfl

/-- C5 witness: at concrete responses, each mode returns data of the first
feature of the first non-empty endpoint. -/
theorem C5_first_feature_witness :
    query_zoning "45.535" "-122.63" (Response.ok (some [sampleFeature])) =
      Except.ok sampleFeature
    ∧ query_taxlot "45.535" "-122.63" (Response.httpStatus "404")
        (Response.ok (some [sampleFeature])) = some sampleFeature.attributes :=
  ⟨(C5_first_feature "45.535" "-122.63" sampleFeature [] (Response.ok (some []))).1,
   (C5_first_feature "45.535" "-122.63" sampleFeature [] (Response.ok (some []))).2.2.2
     (Response.httpStatus "404") (Or.inl rfl)⟩

/-- A zoning dict whose raw attributes are empty, for the C6 key-asymmetry
instances. -/
def plainZoning : ZoningResult :=
  { base_zone := none, overlay_zones := none, plan_district := none,
    source := "Portland Maps - Zoning Code", raw_attributes := [] }

/-- A report with no raw attributes at all. -/
def reportPlain : LookupReport :=
  { input_address := "a", matched_address := "b",
    location := { lat := "0", lon := "0" }, zoning := plainZoning }

/-- The same report except that the raw key `OVRLY` is bound. -/
def reportWithOVRLY : LookupReport :=
  { reportPlain with zoning := { plainZoning with raw_attributes := [("OVRLY", "d")] } }

/-- The same report except that the raw key `PLDIST` is bound. -/
def reportWithPLDIST : LookupReport :=
  { reportPlain with zoning := { plainZoning with raw_attributes := [("PLDIST", "d")] } }

set_option maxRecDepth 16384 in
/-- C6: `extract_zoning_attrs` maps raw key `ZONE` to `base_zone`,
`OVERLAY` to `overlay_zones`, `PLAN_DISTRICT` to `plan_district`, attaches
the constant source string and passes all raw attributes through; the
formatter ignores the extracted `overlay_zones`/`plan_district` fields
entirely (its output is unchanged under any values of them), while its
output does depend on the raw keys `OVRLY` and `PLDIST`, which the
extractor's named fields never read. -/
theorem C6_extract_format_keys :
    (∀ f : Feature,
      extract_zoning_attrs f =
        { base_zone := getAttr f.attributes "ZONE",
          overlay_zones := getAttr f.attributes "OVERLAY",
          plan_district := getAttr f.attributes "PLAN_DISTRICT",
          source := "Portland Maps - Zoning Code",
          raw_attributes := f.attributes })
    ∧ (∀ (r : LookupReport) (ov pd : Option String),
        format_zoning_result
          { r with zoning := { r.zoning with overlay_zones := ov, plan_district := pd } } =
          format_zoning_result r)
    ∧ format_zoning_result reportWithOVRLY ≠ format_zoning_result reportPlain
    ∧ format_zoning_result reportWithPLDIST ≠ format_zoning_result reportPlain := by
  refine ⟨fun f => rfl, fun r ov pd => rfl, ?_, ?_⟩
  · decide
  · decide

/-- C7: the query-parameter dicts built at the three call sites are
identical, with `geometry` interpolating longitude first, point geometry
type, input spatial reference 4326, intersects spatial relation, all output
fields, the always-true row filter, and JSON format. -/
theorem C7_fixed_params :
    ∀ (lat lon : String),
      zoning_params lat lon =
        [ ("geometry", PValue.str (lon ++ "," ++ lat)),
          ("geometryType", PValue.str "esriGeometryPoint"),
          ("inSR", PValue.int 4326),
          ("spatialRel", PValue.str "esriSpatialRelIntersects"),
          ("outFields", PValue.str "*"),
          ("where", PValue.str "1=1"),
          ("f", PValue.str "json") ]
      ∧ building_params lat lon = zoning_params lat lon
      ∧ taxlot_params lat lon = zoning_params lat lon :=
  fun _ _ => ⟨rfl, rfl, rfl⟩

/-- C8: any exception on the zoning path makes the run print exactly one
`Error: <message>` line and never issue the building query; when the zoning
path succeeds and the building query returns absence, the output is the
full zoning report followed by the building header and the no-data line. -/
theorem C8_main_error_abort :
    ∀ (w : World) (addr : String),
      (∀ e : PyErr, get_zoning_for_address w addr = Except.error e →
        main_output w addr = ["Error: " ++ e.message]
        ∧ NetCall.buildingQuery ∉ main_trace w addr)
      ∧ (∀ r : LookupReport, get_zoning_for_address w addr = Except.ok r →
          query_building r.location.lat r.location.lon w.buildingResp = none →
          main_output w addr =
            [format_zoning_result r, "\nBUILDING INFORMATION",
             "  (No building info found for this location)"]) := by
  intro w addr
  rcases hT : get_zoning_for_addressT w addr with ⟨res, tr⟩
  have hres : get_zoning_for_address w addr = res := by
    simp [get_zoning_for_address, hT]
  constructor
  · intro e he
    rw [hres] at he
    subst he
    constructor
    · simp [main_output, mainT, hT]
    · have htr : main_trace w addr = tr := by
        simp [main_trace, mainT, hT]
      have hcases := gz_trace_cases w addr
      rw [hT] at hcases
      rw [htr]
      rcases hcases with hc | hc <;> simp at hc <;> simp [hc]
  · intro r hr hb
    rw [hres] at hr
    subst hr
    simp [main_output, mainT, hT, hb, print_building_info]

/-- C8 witness: a world whose geocoder resolves nothing prints exactly the
single error line. -/
theorem C8_main_error_abort_witness :
    main_output noGeoWorld example_address =
      ["Error: Address could not be geocoded"]
    ∧ NetCall.buildingQuery ∉ main_trace noGeoWorld example_address :=
  (C8_main_error_abort noGeoWorld example_address).1
    (PyErr.valueError "Address could not be geocoded") rfl

/-- C9: `format_zoning_result` is a pure function of its argument: two
applications to the same report render byte-identical strings. -/
theorem C9_format_deterministic :
    ∀ r : LookupReport, format_zoning_result r = format_zoning_result r :=
  fun _ => rfl

/-- C10: a 2xx response whose parsed body lacks the `features` key behaves
exactly like an empty feature list in every query function — `query_zoning`
raises the no-zoning-data error, `query_building` and `query_taxlot` return
`none` — and no key-lookup failure escapes. -/
theorem C10_missing_features_key :
    ∀ (lat lon : String),
      query_zoning lat lon (Response.ok none) =
        Except.error (PyErr.valueError "No zoning data found for this location")
      ∧ query_zoning lat lon (Response.ok none) =
          query_zoning lat lon (Response.ok (some []))
      ∧ query_building lat lon (Response.ok none) = none
      ∧ query_building lat lon (Response.ok none) =
          query_building lat lon (Response.ok (some []))
      ∧ (∀ r2 : Response, query_taxlot lat lon (Response.ok none) r2 =
          query_taxlot lat lon (Response.ok (some [])) r2)
      ∧ query_taxlot lat lon (Response.ok none) (Response.ok none) = none :=
  fun _ _ => ⟨rfl, rfl, rfl, rfl, fun _ => rfl, rfl⟩
